import Mathlib

/-!
Shallow embedding of the ticket-flow pipeline (Farrous05/ticket-flow):
the store data model and repository operations (src/db/models.py,
src/db/repositories.py), the worker processor and message loop
(src/worker/processor.py, src/worker/main.py), the ingestion route and the
approval-decision route (src/api/routes.py), and the agent graph
(src/workflow/agent.py, src/workflow/tools.py).

Timestamps are modelled as natural numbers, opaque JSON maps as small
structures covering exactly the keys the code reads and writes, and the
database as in-memory lists keyed by id.
-/

namespace TicketFlow

abbrev TicketId := String

/-- Ticket lifecycle states, from TicketStatus in src/db/models.py. -/
inductive TicketStatus
  | pending
  | processing
  | awaiting_approval
  | completed
  | failed_permanent
deriving DecidableEq, Repr

/-- Approval lifecycle states, from ApprovalStatus in src/db/models.py. -/
inductive ApprovalStatus
  | pending
  | approved
  | rejected
deriving DecidableEq, Repr

/-- Audit event kinds, from EventType in src/db/models.py. -/
inductive EventType
  | created
  | status_change
  | step_complete
  | error
  | retry
deriving DecidableEq, Repr

/-- The pending_approval entry the agent writes into its result
(src/workflow/agent.py agent_node); the tool_call_id key is carried
opaquely by the code and read by nothing downstream, so it is omitted. -/
structure PendingApproval where
  tool : String
  args : String
deriving DecidableEq, Repr

/-- One entry of the actions_taken list in a ticket result. The approved
flag is only present on entries added by the approval route. -/
structure ActionTaken where
  tool : String
  args : String
  approved : Option Bool := none
deriving DecidableEq, Repr

/-- The ticket.result map: the code reads and writes exactly the keys
final_response, actions_taken, pending_approval and error. -/
structure TicketResult where
  final_response : Option String := none
  actions_taken : List ActionTaken := []
  pending_approval : Option PendingApproval := none
  error : Option String := none
deriving DecidableEq, Repr

/-- A ticket row, from Ticket in src/db/models.py. -/
structure Ticket where
  id : TicketId
  customer_id : String
  subject : String
  body : String
  status : TicketStatus := .pending
  result : Option TicketResult := none
  worker_id : Option String := none
  attempt_count : Nat := 0
  version : Nat := 1
  created_at : Nat := 0
  started_at : Option Nat := none
  completed_at : Option Nat := none
  last_heartbeat : Option Nat := none
deriving DecidableEq, Repr

/-- A partial update, from TicketUpdate in src/db/models.py: a field that
is none is left out of the UPDATE statement. -/
structure TicketUpdate where
  status : Option TicketStatus := none
  result : Option TicketResult := none
  worker_id : Option String := none
  attempt_count : Option Nat := none
  started_at : Option Nat := none
  completed_at : Option Nat := none
  last_heartbeat : Option Nat := none
deriving DecidableEq, Repr

/-- An audit event row, from TicketEvent in src/db/models.py. The payload
is an opaque JSON map, modelled as a string association list. -/
structure TicketEvent where
  ticket_id : TicketId
  event_type : EventType
  step_name : Option String := none
  payload : List (String × String) := []
deriving DecidableEq, Repr

/-- A workflow checkpoint row, from WorkflowCheckpoint in src/db/models.py;
the serialized state is opaque here. -/
structure Checkpoint where
  ticket_id : TicketId
  state : String
  current_step : String
deriving DecidableEq, Repr

/-- An approval request row, from ApprovalRequest in src/db/models.py. -/
structure Approval where
  id : Nat
  ticket_id : TicketId
  action_type : String
  action_params : String
  status : ApprovalStatus := .pending
  decided_by : Option String := none
  decision_reason : Option String := none
deriving DecidableEq, Repr

/-- The persistent store: the tickets, ticket_events, workflow_checkpoints
and approval_requests tables. approvalSeq stands in for the database's id
generator for approval rows. -/
structure Store where
  tickets : List Ticket := []
  events : List TicketEvent := []
  checkpoints : List Checkpoint := []
  approvals : List Approval := []
  approvalSeq : Nat := 0
deriving DecidableEq, Repr

/-- Logical database failures surfaced by the repositories:
OptimisticLockError and TicketNotFoundError in src/db/repositories.py. -/
inductive DbError
  | notFound
  | versionConflict
deriving DecidableEq, Repr

def DbError.message : DbError → String
  | .notFound => "ticket not found"
  | .versionConflict => "version mismatch"

instance {ε α : Type _} [DecidableEq ε] [DecidableEq α] :
    DecidableEq (Except ε α)
  | .error a, .error b =>
    if h : a = b then .isTrue (by rw [h])
    else .isFalse (fun hh => h (Except.error.inj hh))
  | .error _, .ok _ => .isFalse (fun hh => Except.noConfusion hh)
  | .ok _, .error _ => .isFalse (fun hh => Except.noConfusion hh)
  | .ok a, .ok b =>
    if h : a = b then .isTrue (by rw [h])
    else .isFalse (fun hh => h (Except.ok.inj hh))

-- ### Ticket repository (src/db/repositories.py, TicketRepository)

/-- TicketRepository.get_by_id. -/
def getTicket (s : Store) (tid : TicketId) : Option Ticket :=
  s.tickets.find? (fun t => t.id == tid)

/-- Replace the row whose id matches t.id (the UPDATE ... WHERE id = ...). -/
def putTicket (s : Store) (t : Ticket) : Store :=
  { s with tickets := s.tickets.map (fun u => if u.id == t.id then t else u) }

/-- True when every field of the patch is unset, i.e. the data dict built
by TicketRepository.update is empty. -/
def patchIsEmpty (u : TicketUpdate) : Bool :=
  u.status.isNone && u.result.isNone && u.worker_id.isNone &&
    u.attempt_count.isNone && u.started_at.isNone && u.completed_at.isNone &&
    u.last_heartbeat.isNone

/-- Apply the set fields of a patch to a row. The version bump is the
database trigger on the tickets table. Modelled from the spec: the
migration SQL defining the trigger is not under src/; the spec states that
version increments by 1 on every mutating update, and the worker code
relies on it (the comment in TicketProcessor.process, src/worker/processor.py
line 123, notes that heartbeats increment the version). -/
def applyPatch (t : Ticket) (u : TicketUpdate) : Ticket :=
  { t with
    status := u.status.getD t.status
    result := match u.result with | some r => some r | none => t.result
    worker_id := match u.worker_id with | some w => some w | none => t.worker_id
    attempt_count := u.attempt_count.getD t.attempt_count
    started_at := match u.started_at with | some x => some x | none => t.started_at
    completed_at := match u.completed_at with | some x => some x | none => t.completed_at
    last_heartbeat := match u.last_heartbeat with | some x => some x | none => t.last_heartbeat
    version := t.version + 1 }

/-- TicketRepository.update: with an empty patch it degenerates to a read;
otherwise it issues UPDATE ... WHERE id = tid [AND version = expected].
When no row matches it raises OptimisticLockError whenever an expected
version was supplied, and TicketNotFoundError otherwise. -/
def updateTicket (s : Store) (tid : TicketId) (u : TicketUpdate)
    (expected : Option Nat) : Except DbError (Ticket × Store) :=
  if patchIsEmpty u then
    match getTicket s tid with
    | none => .error .notFound
    | some t => .ok (t, s)
  else
    match getTicket s tid with
    | none =>
      if expected.isSome then .error .versionConflict else .error .notFound
    | some t =>
      match expected with
      | some v =>
        if t.version = v then
          .ok (applyPatch t u, putTicket s (applyPatch t u))
        else .error .versionConflict
      | none => .ok (applyPatch t u, putTicket s (applyPatch t u))

/-- TicketRepository.update_heartbeat: an UPDATE of last_heartbeat and
worker_id with no version filter; it raises nothing when the row is
missing. The trigger still bumps the version of a matched row. -/
def updateHeartbeat (s : Store) (tid : TicketId) (wid : String) (now : Nat) :
    Store :=
  match getTicket s tid with
  | none => s
  | some t =>
    putTicket s { t with
      last_heartbeat := some now
      worker_id := some wid
      version := t.version + 1 }

/-- The patch written by TicketRepository.acquire_for_processing. -/
def acquirePatch (wid : String) (now : Nat) : TicketUpdate :=
  { status := some .processing
    worker_id := some wid
    started_at := some now
    last_heartbeat := some now }

/-- TicketRepository.acquire_for_processing. -/
def acquireForProcessing (s : Store) (tid : TicketId) (wid : String)
    (now : Nat) (expected : Nat) : Except DbError (Ticket × Store) :=
  updateTicket s tid (acquirePatch wid now) (some expected)

/-- The patch written by TicketRepository.mark_completed. -/
def completedPatch (result : TicketResult) (now : Nat) : TicketUpdate :=
  { status := some .completed, result := some result, completed_at := some now }

/-- TicketRepository.mark_completed. -/
def markCompleted (s : Store) (tid : TicketId) (result : TicketResult)
    (now : Nat) (expected : Nat) : Except DbError (Ticket × Store) :=
  updateTicket s tid (completedPatch result now) (some expected)

/-- The patch written by TicketRepository.mark_awaiting_approval. -/
def awaitingPatch (result : TicketResult) : TicketUpdate :=
  { status := some .awaiting_approval, result := some result }

/-- TicketRepository.mark_awaiting_approval. -/
def markAwaitingApproval (s : Store) (tid : TicketId) (result : TicketResult)
    (expected : Nat) : Except DbError (Ticket × Store) :=
  updateTicket s tid (awaitingPatch result) (some expected)

/-- TicketRepository.mark_failed_permanent: the result is replaced by the
single-key map containing the error string. -/
def markFailedPermanent (s : Store) (tid : TicketId) (err : String)
    (now : Nat) (expected : Nat) : Except DbError (Ticket × Store) :=
  updateTicket s tid
    { status := some .failed_permanent
      result := some { error := some err }
      completed_at := some now }
    (some expected)

/-- TicketRepository.increment_attempt: a read followed by an unguarded
update setting status back to pending. -/
def incrementAttempt (s : Store) (tid : TicketId) :
    Except DbError (Ticket × Store) :=
  match getTicket s tid with
  | none => .error .notFound
  | some t =>
    updateTicket s tid
      { status := some .pending, attempt_count := some (t.attempt_count + 1) }
      none

-- ### Event repository (src/db/repositories.py, TicketEventRepository)

def TicketStatus.value : TicketStatus → String
  | .pending => "pending"
  | .processing => "processing"
  | .awaiting_approval => "awaiting_approval"
  | .completed => "completed"
  | .failed_permanent => "failed_permanent"

/-- TicketEventRepository.create: an unconditional append. -/
def appendEvent (s : Store) (e : TicketEvent) : Store :=
  { s with events := s.events ++ [e] }

/-- TicketEventRepository.log_status_change. -/
def logStatusChange (s : Store) (tid : TicketId)
    (old new : TicketStatus) : Store :=
  appendEvent s
    { ticket_id := tid
      event_type := .status_change
      payload := [("old_status", old.value), ("new_status", new.value)] }

/-- TicketEventRepository.log_step_complete. -/
def logStepComplete (s : Store) (tid : TicketId) (step : String) : Store :=
  appendEvent s
    { ticket_id := tid, event_type := .step_complete, step_name := some step }

/-- TicketEventRepository.log_error. -/
def logError (s : Store) (tid : TicketId) (err : String) : Store :=
  appendEvent s
    { ticket_id := tid, event_type := .error, payload := [("error", err)] }

/-- TicketEventRepository.log_retry. -/
def logRetry (s : Store) (tid : TicketId) (attempt : Nat) (err : String) :
    Store :=
  appendEvent s
    { ticket_id := tid
      event_type := .retry
      payload := [("attempt", toString attempt), ("error", err)] }

/-- Number of events of a kind recorded for a ticket. -/
def countEvents (s : Store) (ty : EventType) (tid : TicketId) : Nat :=
  s.events.countP (fun e => decide (e.event_type = ty ∧ e.ticket_id = tid))

-- ### Checkpoint repository (src/db/repositories.py, WorkflowCheckpointRepository)

def getCheckpoint (s : Store) (tid : TicketId) : Option Checkpoint :=
  s.checkpoints.find? (fun c => c.ticket_id == tid)

/-- WorkflowCheckpointRepository.upsert (ON CONFLICT ticket_id). -/
def upsertCheckpoint (s : Store) (c : Checkpoint) : Store :=
  if s.checkpoints.any (fun d => d.ticket_id == c.ticket_id) then
    { s with checkpoints :=
        s.checkpoints.map (fun d => if d.ticket_id == c.ticket_id then c else d) }
  else
    { s with checkpoints := s.checkpoints ++ [c] }

/-- WorkflowCheckpointRepository.delete. -/
def deleteCheckpoint (s : Store) (tid : TicketId) : Store :=
  { s with checkpoints := s.checkpoints.filter (fun d => !(d.ticket_id == tid)) }

-- ### Approval repository (src/db/repositories.py, ApprovalRepository)

def getApproval (s : Store) (aid : Nat) : Option Approval :=
  s.approvals.find? (fun a => a.id == aid)

/-- ApprovalRepository.create: inserts a pending row; the id comes from the
database sequence. -/
def createApproval (s : Store) (tid : TicketId) (ty params : String) :
    Approval × Store :=
  let a : Approval :=
    { id := s.approvalSeq, ticket_id := tid, action_type := ty,
      action_params := params }
  (a, { s with approvals := s.approvals ++ [a], approvalSeq := s.approvalSeq + 1 })

/-- ApprovalRepository.decide: the UPDATE is filtered on status = pending
(the CAS); none is returned when no row matched. -/
def decideApprovalRow (s : Store) (aid : Nat) (approved : Bool)
    (who : String) (reason : Option String) : Option (Approval × Store) :=
  match getApproval s aid with
  | none => none
  | some a =>
    if a.status = .pending then
      let a2 := { a with
        status := if approved then ApprovalStatus.approved else .rejected
        decided_by := some who
        decision_reason := reason }
      some (a2, { s with
        approvals := s.approvals.map (fun b => if b.id == aid then a2 else b) })
    else none

-- ### Worker processor (src/worker/processor.py, TicketProcessor.process)

/-- The configuration fields the worker reads (src/common/config.py):
worker_id, max_retries (default 3) and stale_processing_threshold_seconds
(default 300). -/
structure WorkerCfg where
  worker_id : String := "worker-1"
  max_retries : Nat := 3
  stale_threshold : Nat := 300
deriving DecidableEq, Repr

/-- One node output yielded by workflow.stream: the node name, the
serialized state snapshot, and an optional current_step override
(node_output.get with the node name as default). -/
structure StepOutput where
  node : String
  state : String := ""
  current_step : Option String := none
deriving DecidableEq, Repr

/-- The observable behaviour of one workflow execution: either a final
extracted result (TicketProcessor extract of final_response,
actions_taken and pending_approval) or an exception message. -/
inductive WorkflowOutcome
  | ok (result : TicketResult)
  | err (msg : String)
deriving DecidableEq, Repr

/-- A workflow run as the processor observes it: the step outputs streamed
before the run finishes (each triggering a checkpoint upsert, a
step_complete event and a heartbeat) and the outcome. -/
structure WorkflowRun where
  steps : List StepOutput := []
  outcome : WorkflowOutcome
deriving DecidableEq, Repr

/-- The stale-lock check in TicketProcessor.process: a heartbeat exists and
its age (now minus heartbeat, computed over the integers as the code
subtracts datetimes) is below the staleness threshold. -/
def isFreshHeartbeat (hb : Option Nat) (now thresh : Nat) : Bool :=
  match hb with
  | none => false
  | some h => (now : Int) - (h : Int) < (thresh : Int)

/-- Per-step persistence inside TicketProcessor, execute workflow loop:
upsert the checkpoint, log step_complete, update the heartbeat. -/
def execStep (wid : String) (now : Nat) (tid : TicketId) (s : Store)
    (st : StepOutput) : Store :=
  let s1 := upsertCheckpoint s
    { ticket_id := tid, state := st.state,
      current_step := st.current_step.getD st.node }
  let s2 := logStepComplete s1 tid st.node
  updateHeartbeat s2 tid wid now

def execSteps (wid : String) (now : Nat) (tid : TicketId)
    (steps : List StepOutput) (s : Store) : Store :=
  steps.foldl (execStep wid now tid) s

/-- How TicketProcessor.process ends: the python function returns True
(ack), returns False (retry requested), or raises out of process into the
message handler. -/
inductive ProcOutcome
  | done
  | redo
  | exc (msg : String)
deriving DecidableEq, Repr

/-- TicketProcessor.process, translated clause by clause: the missing
ticket drop, the terminal and awaiting_approval idempotency gate, the
stale-lock check, lease acquisition by CAS, per-step persistence, then
finalization (approval hand-off, completion, permanent failure or
retry). -/
def process (cfg : WorkerCfg) (run : WorkflowRun) (now : Nat)
    (tid : TicketId) (attempt : Nat) (s : Store) : ProcOutcome × Store :=
  match getTicket s tid with
  | none => (.done, s)
  | some t =>
    if t.status = .completed ∨ t.status = .failed_permanent ∨
        t.status = .awaiting_approval then
      (.done, s)
    else if t.status = .processing ∧
        isFreshHeartbeat t.last_heartbeat now cfg.stale_threshold = true then
      (.redo, s)
    else
      match acquireForProcessing s tid cfg.worker_id now t.version with
      | .error _ => (.redo, s)
      | .ok (_, s1) =>
        let s2 := logStatusChange s1 tid .pending .processing
        let s3 := execSteps cfg.worker_id now tid run.steps s2
        match run.outcome with
        | .ok result =>
          match getTicket s3 tid with
          | none => (.exc "ticket disappeared", s3)
          | some cur =>
            match result.pending_approval with
            | some pa =>
              let s4 := (createApproval s3 tid pa.tool pa.args).2
              match markAwaitingApproval s4 tid result cur.version with
              | .error e => (.exc e.message, s4)
              | .ok (_, s5) =>
                (.done, logStatusChange s5 tid .processing .awaiting_approval)
            | none =>
              match markCompleted s3 tid result now cur.version with
              | .error e => (.exc e.message, s3)
              | .ok (_, s4) =>
                let s5 := logStatusChange s4 tid .processing .completed
                (.done, deleteCheckpoint s5 tid)
        | .err m =>
          let s4 := logError s3 tid m
          if cfg.max_retries ≤ attempt then
            let v := match getTicket s4 tid with
              | some cur => cur.version
              | none => 1
            match markFailedPermanent s4 tid m now v with
            | .error e => (.exc e.message, s4)
            | .ok (_, s5) =>
              (.done, logStatusChange s5 tid .processing .failed_permanent)
          else
            match incrementAttempt s4 tid with
            | .error e => (.exc e.message, s4)
            | .ok (_, s5) => (.redo, logRetry s5 tid attempt m)

-- ### Worker message loop (src/worker/main.py, process_message)

/-- A broker envelope: ticket_id and attempt (enqueued_at plays no role in
the consumer logic). -/
structure Envelope where
  ticket_id : TicketId
  attempt : Nat
deriving DecidableEq, Repr

/-- What the handler does with the delivery: ack, nack with requeue, or
nack without requeue (routing to the dead-letter queue). -/
inductive MsgAction
  | ack
  | requeue
  | dlx
deriving DecidableEq, Repr

/-- process_message in src/worker/main.py: on completion ack; on a retry
request publish attempt+1 and ack while attempt < max_retries, else nack
to the dead-letter queue; on an exception nack with requeue iff
attempt < max_retries. Returns the action, the envelopes published, and
the updated store. -/
def processMessage (cfg : WorkerCfg) (run : WorkflowRun) (now : Nat)
    (m : Envelope) (s : Store) : MsgAction × List Envelope × Store :=
  match process cfg run now m.ticket_id m.attempt s with
  | (.done, s1) => (.ack, [], s1)
  | (.redo, s1) =>
    if m.attempt < cfg.max_retries then
      (.ack, [{ ticket_id := m.ticket_id, attempt := m.attempt + 1 }], s1)
    else (.dlx, [], s1)
  | (.exc _, s1) =>
    (if m.attempt < cfg.max_retries then .requeue else .dlx, [], s1)

/-- Ideal single-delivery broker loop: consume the queue in order, append
published envelopes, requeue nacked-with-requeue deliveries at the back,
collect dead-lettered envelopes. The workflow behaviour may depend on the
attempt number. Returns the final store, the unconsumed queue (empty when
the fuel sufficed) and the dead-letter queue. -/
def runQueue (cfg : WorkerCfg) (runOf : Nat → WorkflowRun) (now : Nat) :
    Nat → List Envelope → Store → Store × List Envelope × List Envelope
  | 0, q, s => (s, q, [])
  | _ + 1, [], s => (s, [], [])
  | fuel + 1, m :: rest, s =>
    match processMessage cfg (runOf m.attempt) now m s with
    | (.ack, pubs, s1) => runQueue cfg runOf now fuel (rest ++ pubs) s1
    | (.requeue, pubs, s1) =>
      runQueue cfg runOf now fuel (rest ++ pubs ++ [m]) s1
    | (.dlx, pubs, s1) =>
      let r := runQueue cfg runOf now fuel (rest ++ pubs) s1
      (r.1, r.2.1, m :: r.2.2)

/-- The stores visited by the broker loop, the initial one included: one
snapshot per consumed envelope boundary. -/
def runTrace (cfg : WorkerCfg) (runOf : Nat → WorkflowRun) (now : Nat) :
    Nat → List Envelope → Store → List Store
  | 0, _, s => [s]
  | _ + 1, [], s => [s]
  | fuel + 1, m :: rest, s =>
    match processMessage cfg (runOf m.attempt) now m s with
    | (.ack, pubs, s1) => s :: runTrace cfg runOf now fuel (rest ++ pubs) s1
    | (.requeue, pubs, s1) =>
      s :: runTrace cfg runOf now fuel (rest ++ pubs ++ [m]) s1
    | (.dlx, pubs, s1) => s :: runTrace cfg runOf now fuel (rest ++ pubs) s1

-- ### Ingestion (src/api/routes.py, generate_ticket_id and create_ticket)

structure CreateTicketRequest where
  customer_id : String
  subject : String
  body : String
deriving DecidableEq, Repr

structure CreateTicketResponse where
  ticket_id : TicketId
  status : TicketStatus
deriving DecidableEq, Repr

/-- generate_ticket_id: uuid5(TICKET_NAMESPACE, sha256(content)) over the
content string customer_id:subject:body. The hash and uuid5 steps are a
fixed deterministic function of the content; they are abstracted here as
the identity on the content, which preserves exactly what the route relies
on: the id is a function of (customer_id, subject, body). -/
def generateTicketId (customer_id subject body : String) : TicketId :=
  customer_id ++ ":" ++ subject ++ ":" ++ body

/-- create_ticket in src/api/routes.py: compute the deterministic id; if a
ticket with that id exists return it (idempotency); otherwise insert the
row at its defaults, append the created event, and publish an attempt-1
envelope. -/
def createTicket (now : Nat) (req : CreateTicketRequest) (s : Store) :
    CreateTicketResponse × List Envelope × Store :=
  let tid := generateTicketId req.customer_id req.subject req.body
  match getTicket s tid with
  | some existing => ({ ticket_id := existing.id, status := existing.status }, [], s)
  | none =>
    let t : Ticket :=
      { id := tid, customer_id := req.customer_id, subject := req.subject,
        body := req.body, created_at := now }
    let s1 := { s with tickets := s.tickets ++ [t] }
    let s2 := appendEvent s1
      { ticket_id := tid
        event_type := .created
        payload := [("customer_id", req.customer_id), ("subject", req.subject)] }
    ({ ticket_id := tid, status := t.status },
      [{ ticket_id := tid, attempt := 1 }], s2)

-- ### Approval decision route (src/api/routes.py, decide_approval)

/-- What invoking the gated tool does: return a result whose success flag
the route reads, or raise. -/
inductive ToolOutcome
  | ok (success : Bool)
  | raises (msg : String)
deriving DecidableEq, Repr

/-- The _execute_approved_action helper: process_refund is invoked for its
action type; any other action type logs a warning and returns False. The
refund tool's behaviour is the oracle argument. -/
def executeApprovedAction (refund : String → ToolOutcome)
    (ty params : String) : ToolOutcome :=
  if ty = "process_refund" then refund params else .ok false

structure DecisionReq where
  approved : Bool
  decided_by : String
  reason : Option String := none
deriving DecidableEq, Repr

/-- The HTTP-visible outcome of POST /approvals/id/decide. -/
inductive DecideOutcome
  | approvalMissing
  | alreadyDecided
  | conflict
  | ticketMissing
  | ok (action_executed : Bool) (message : String)
  | storeError (e : DbError)
deriving DecidableEq, Repr

/-- decide_approval in src/api/routes.py, clause by clause: 404 on a
missing approval, 400 when not pending, CAS decide (409 on a lost race),
the decision event, the ticket read, then the approved branch (whose try
block covers tool execution and the completion write: any exception there
is caught and reported only in the response message) or the rejected
branch (whose completion write is not wrapped, so a store error surfaces
as a 500). -/
def decideApproval (refund : String → ToolOutcome) (now : Nat) (s : Store)
    (aid : Nat) (d : DecisionReq) : DecideOutcome × Store :=
  match getApproval s aid with
  | none => (.approvalMissing, s)
  | some a =>
    if a.status ≠ .pending then (.alreadyDecided, s)
    else
      match decideApprovalRow s aid d.approved d.decided_by d.reason with
      | none => (.conflict, s)
      | some (_, s1) =>
        let s2 := appendEvent s1
          { ticket_id := a.ticket_id
            event_type := .status_change
            step_name := some "approval_decision"
            payload := [("action_type", a.action_type),
                        ("approved", toString d.approved),
                        ("decided_by", d.decided_by)] }
        match getTicket s2 a.ticket_id with
        | none => (.ticketMissing, s2)
        | some t =>
          if d.approved then
            match executeApprovedAction refund a.action_type a.action_params with
            | .raises m =>
              (.ok false ("Action approved but execution failed: " ++ m), s2)
            | .ok success =>
              let r0 := t.result.getD {}
              let r : TicketResult :=
                { r0 with
                  final_response := some ("Your " ++
                    (a.action_type.replace "_" " ") ++
                    " request has been approved and processed.")
                  actions_taken := r0.actions_taken ++
                    [{ tool := a.action_type, args := a.action_params,
                       approved := some true }]
                  pending_approval := none }
              match markCompleted s2 a.ticket_id r now t.version with
              | .error e =>
                (.ok false ("Action approved but execution failed: " ++ e.message), s2)
              | .ok (_, s3) =>
                let s4 := logStatusChange s3 a.ticket_id .awaiting_approval .completed
                (.ok success ("Action approved and executed"), s4)
          else
            let r0 := t.result.getD {}
            let r : TicketResult :=
              { r0 with
                final_response := some ("Your " ++
                  (a.action_type.replace "_" " ") ++
                  " request was reviewed but not approved. Reason: " ++
                  d.reason.getD "No reason provided")
                pending_approval := none }
            match markCompleted s2 a.ticket_id r now t.version with
            | .error e => (.storeError e, s2)
            | .ok (_, s3) =>
              let s4 := logStatusChange s3 a.ticket_id .awaiting_approval .completed
              (.ok false ("Action rejected"), s4)

-- ### Agent graph (src/workflow/agent.py, src/workflow/tools.py)

/-- A proposed tool call on an AI message. -/
structure ToolCall where
  name : String
  args : String
deriving DecidableEq, Repr

/-- The message kinds flowing through the agent loop. -/
inductive Msg
  | system (content : String)
  | human (content : String)
  | ai (content : String) (tool_calls : List ToolCall)
  | toolMsg (content : String)
deriving DecidableEq, Repr

/-- REQUIRES_APPROVAL_TOOLS in src/workflow/tools.py. -/
def REQUIRES_APPROVAL_TOOLS : List String := ["process_refund"]

/-- requires_approval in src/workflow/tools.py. -/
def requiresApproval (name : String) : Bool :=
  REQUIRES_APPROVAL_TOOLS.contains name

/-- AgentState in src/workflow/agent.py, with the ticket input fields that
do not influence control flow collapsed into ticket_id. -/
structure AgentState where
  ticket_id : String
  messages : List Msg
  final_response : Option String := none
  actions_taken : List ActionTaken := []
  pending_approval : Option PendingApproval := none
  should_end : Bool := false
deriving DecidableEq, Repr

/-- The generic fallback response of finalize_node. -/
def FALLBACK_RESPONSE : String :=
  "I apologize, but I was unable to process your request. A human agent will review your ticket shortly."

/-- agent_node: invoke the LLM on the message history; when the response
carries a tool call classified approval-required, surface pending_approval
for the first such call; otherwise just append the response. The LLM is an
oracle from the history to (content, tool_calls). -/
def agentNode (llm : List Msg → String × List ToolCall) (st : AgentState) :
    AgentState :=
  let out := llm st.messages
  let response := Msg.ai out.1 out.2
  match out.2.find? (fun tc => requiresApproval tc.name) with
  | some tc =>
    { st with
      messages := st.messages ++ [response]
      pending_approval := some { tool := tc.name, args := tc.args } }
  | none => { st with messages := st.messages ++ [response] }

/-- The routing targets of should_continue. -/
inductive Route
  | tools
  | finalize
  | await_approval
deriving DecidableEq, Repr

/-- should_continue: pending approval ends the run via await_approval; a
last AI message with tool calls routes to tools; anything else
finalizes. -/
def shouldContinue (st : AgentState) : Route :=
  if st.pending_approval.isSome then .await_approval
  else
    match st.messages.getLast? with
    | some (.ai _ (_ :: _)) => .tools
    | _ => .finalize

/-- tools_node: execute the tool calls of the last AI message (the tool
executor is an oracle), append their tool messages, and record the calls
in actions_taken. -/
def toolsNode (toolExec : ToolCall → String) (st : AgentState) : AgentState :=
  match st.messages.getLast? with
  | some (.ai _ tcs) =>
    { st with
      messages := st.messages ++ tcs.map (fun tc => Msg.toolMsg (toolExec tc))
      actions_taken := st.actions_taken ++
        tcs.map (fun tc => { tool := tc.name, args := tc.args }) }
  | _ => st

/-- finalize_node: take the last AI message without tool calls as the
final response, falling back to the generic apology. -/
def finalizeNode (st : AgentState) : AgentState :=
  match st.messages.reverse.find?
      (fun m => match m with | .ai _ [] => true | _ => false) with
  | some (.ai c _) => { st with final_response := some c, should_end := true }
  | _ => { st with final_response := some FALLBACK_RESPONSE, should_end := true }

/-- await_approval_node: mark the state suspended with the hand-off
message. -/
def awaitApprovalNode (st : AgentState) : AgentState :=
  { st with
    final_response := some ("Your request requires approval. A support manager will review and approve the "
      ++ ((st.pending_approval.map PendingApproval.tool).getD "action")
      ++ " shortly.")
    should_end := true }

/-- Drive the compiled graph from the agent entry point: agent, then the
conditional edge, with tools looping back to agent. The fuel models
langgraph's recursion limit (default 25 supersteps), the only thing that
stops the loop: create_agent_graph itself imposes no iteration bound.
Returns the final state, the number of agent invocations performed, and
whether the run ended at a terminal node (false means the recursion limit
was hit, which the runtime surfaces as an error, not as a finalize). -/
def agentLoop (llm : List Msg → String × List ToolCall)
    (toolExec : ToolCall → String) :
    Nat → AgentState → Nat → AgentState × Nat × Bool
  | 0, st, iters => (st, iters, false)
  | fuel + 1, st, iters =>
    let st1 := agentNode llm st
    match shouldContinue st1 with
    | .await_approval => (awaitApprovalNode st1, iters + 1, true)
    | .finalize => (finalizeNode st1, iters + 1, true)
    | .tools => agentLoop llm toolExec fuel (toolsNode toolExec st1) (iters + 1)

/-- The initial agent state built by TicketProcessor for a ticket (system
prompt plus the formatted ticket message). -/
def initialAgentState (tid : String) : AgentState :=
  { ticket_id := tid
    messages := [Msg.system "prompt", Msg.human "ticket"] }

-- ### Concrete scenarios used by the theorems

/-- A fresh ticket at its insertion defaults. -/
def baseTicket : Ticket :=
  { id := "t1", customer_id := "c", subject := "s", body := "b" }

/-- A store holding one pending ticket. -/
def pendingStore : Store := { tickets := [baseTicket] }

/-- A workflow execution that completes one step and then raises. -/
def failingRun : WorkflowRun :=
  { steps := [{ node := "agent" }], outcome := .err "boom" }

/-- The workflow raises on every attempt. -/
def alwaysFailing : Nat → WorkflowRun := fun _ => failingRun

/-- The store after fully consuming the queue for a ticket whose workflow
raises on every attempt, with the default configuration (max_retries = 3). -/
def retryRunStore : Store :=
  (runQueue {} alwaysFailing 0 10 [{ ticket_id := "t1", attempt := 1 }] pendingStore).1

/-- The result the agent leaves behind when it suspends for a refund
approval. -/
def approvalResult : TicketResult :=
  { final_response := some "needs approval"
    pending_approval := some { tool := "process_refund", args := "p" } }

/-- A ticket suspended in awaiting_approval with that result. -/
def approvalTicket : Ticket :=
  { id := "t1", customer_id := "c", subject := "s", body := "b"
    status := .awaiting_approval, result := some approvalResult, version := 3 }

/-- The matching pending approval row. -/
def refundApproval : Approval :=
  { id := 0, ticket_id := "t1", action_type := "process_refund",
    action_params := "p" }

/-- A store suspended at the approval hand-off. -/
def approvalStore : Store :=
  { tickets := [approvalTicket], approvals := [refundApproval], approvalSeq := 1 }

/-- The same suspended store with its retained workflow checkpoint. -/
def approvalStoreCkpt : Store :=
  { tickets := [approvalTicket], approvals := [refundApproval]
    checkpoints := [{ ticket_id := "t1", state := "st", current_step := "await_approval" }]
    approvalSeq := 1 }

/-- A refund tool that raises. -/
def raisingRefund : String → ToolOutcome := fun _ => .raises "boom"

/-- A refund tool that succeeds. -/
def okRefund : String → ToolOutcome := fun _ => .ok true

def approveReq : DecisionReq := { approved := true, decided_by := "admin" }

def rejectReq : DecisionReq :=
  { approved := false, decided_by := "admin", reason := some "no" }

/-- A ticket already failed permanently, next to a leftover pending
approval row (reachable when a worker crashes between approval creation
and the awaiting_approval transition, and retries then exhaust). -/
def failedTicket : Ticket :=
  { id := "t1", customer_id := "c", subject := "s", body := "b"
    status := .failed_permanent, result := some { error := some "boom" }
    version := 5 }

def failedStore : Store :=
  { tickets := [failedTicket], approvals := [refundApproval], approvalSeq := 1 }

/-- The result of a workflow execution that finishes cleanly. -/
def doneResult : TicketResult := { final_response := some "done" }

/-- A workflow execution that finishes cleanly with a final response. -/
def okRun : WorkflowRun :=
  { steps := [{ node := "agent" }]
    outcome := .ok doneResult }

/-- A ticket already completed, next to a still-pending approval row. -/
def completedTicket : Ticket :=
  { id := "t1", customer_id := "c", subject := "s", body := "b"
    status := .completed, result := some { final_response := some "done" }
    version := 4 }

def completedStore : Store :=
  { tickets := [completedTicket], approvals := [refundApproval],
    approvalSeq := 1 }

/-- A workflow execution that ends suspended on a refund approval. -/
def awaitRun : WorkflowRun :=
  { steps := [{ node := "agent" }]
    outcome := .ok approvalResult }

/-- An LLM script that keeps proposing an auto-approve tool call for its
first nine invocations (history lengths 2, 4, ..., 18) and only then
answers plainly. -/
def scriptedLLM : List Msg → String × List ToolCall := fun msgs =>
  if msgs.length < 20 then ("", [{ name := "check_order_status", args := "o" }])
  else ("All set", [])

def scriptedTools : ToolCall → String := fun _ => "tool-result"

/-- The agent run driven by that script under langgraph's default
recursion limit. -/
def agentRunC4 : AgentState × Nat × Bool :=
  agentLoop scriptedLLM scriptedTools 25 (initialAgentState "t1") 0

/-- A ticket freshly leased by another worker, and its store: the stale
check sees a heartbeat younger than the threshold. -/
def processingTicket : Ticket :=
  { id := "t1", customer_id := "c", subject := "s", body := "b"
    status := .processing, worker_id := some "w2", last_heartbeat := some 0 }

def processingStore : Store := { tickets := [processingTicket] }

-- ### Helper lemmas

theorem getTicket_id {s : Store} {tid : TicketId} {t : Ticket}
    (h : getTicket s tid = some t) : t.id = tid := by
  have hp := List.find?_some h
  simpa using hp

theorem find?_map_replace {l : List Ticket} {tid : TicketId} {t0 : Ticket}
    (h : l.find? (fun u => u.id == tid) = some t0) (t : Ticket)
    (hid : t.id = tid) :
    (l.map (fun u => if u.id == t.id then t else u)).find?
      (fun u => u.id == tid) = some t := by
  induction l with
  | nil => simp at h
  | cons a l ih =>
    rw [List.map_cons]
    by_cases ha : a.id = tid
    · have h1 : (a.id == t.id) = true := beq_iff_eq.mpr (hid ▸ ha)
      have h2 : (t.id == tid) = true := beq_iff_eq.mpr hid
      rw [if_pos h1]
      simp [List.find?_cons, h2]
    · have h1 : (a.id == t.id) = false := by
        rw [hid]; exact beq_eq_false_iff_ne.mpr ha
      have hpa : (a.id == tid) = false := beq_eq_false_iff_ne.mpr ha
      rw [if_neg (by simp [h1])]
      rw [List.find?_cons, hpa] at h ⊢
      exact ih h

theorem getTicket_putTicket {s : Store} {tid : TicketId} {t0 : Ticket}
    (h : getTicket s tid = some t0) (t : Ticket) (hid : t.id = tid) :
    getTicket (putTicket s t) tid = some t :=
  find?_map_replace h t hid

theorem getTicket_appendEvent (s : Store) (e : TicketEvent) (tid : TicketId) :
    getTicket (appendEvent s e) tid = getTicket s tid := rfl

theorem getTicket_logStatusChange (s : Store) (tid2 tid : TicketId)
    (o n : TicketStatus) :
    getTicket (logStatusChange s tid2 o n) tid = getTicket s tid := rfl

theorem getTicket_upsertCheckpoint (s : Store) (c : Checkpoint)
    (tid : TicketId) :
    getTicket (upsertCheckpoint s c) tid = getTicket s tid := by
  unfold upsertCheckpoint
  split <;> rfl

theorem getTicket_deleteCheckpoint (s : Store) (tid tid2 : TicketId) :
    getTicket (deleteCheckpoint s tid2) tid = getTicket s tid := rfl

theorem getTicket_createApproval (s : Store) (tid2 : TicketId)
    (ty params : String) (tid : TicketId) :
    getTicket (createApproval s tid2 ty params).2 tid = getTicket s tid := rfl

theorem getTicket_updateHeartbeat {s : Store} {tid : TicketId} {t : Ticket}
    (h : getTicket s tid = some t) (wid : String) (now : Nat) :
    getTicket (updateHeartbeat s tid wid now) tid =
      some { t with last_heartbeat := some now, worker_id := some wid,
                    version := t.version + 1 } := by
  unfold updateHeartbeat
  rw [h]
  have hid : t.id = tid := getTicket_id h
  exact getTicket_putTicket h _ hid

theorem getTicket_setApprovals (s : Store) (l : List Approval)
    (tid : TicketId) :
    getTicket { s with approvals := l } tid = getTicket s tid := rfl

theorem applyPatch_id (t : Ticket) (u : TicketUpdate) :
    (applyPatch t u).id = t.id := rfl

theorem updateTicket_matched {s : Store} {tid : TicketId} {t : Ticket}
    (u : TicketUpdate) (h : getTicket s tid = some t)
    (hne : patchIsEmpty u = false) :
    updateTicket s tid u (some t.version) =
      .ok (applyPatch t u, putTicket s (applyPatch t u)) := by
  simp [updateTicket, hne, h]

theorem getTicket_execSteps {tid : TicketId} (wid : String) (now : Nat)
    (steps : List StepOutput) {s : Store}
    (h : (getTicket s tid).isSome) :
    (getTicket (execSteps wid now tid steps s) tid).isSome := by
  induction steps generalizing s with
  | nil => simpa [execSteps]
  | cons st steps ih =>
    show (getTicket (execSteps wid now tid steps (execStep wid now tid s st))
      tid).isSome
    apply ih
    obtain ⟨t, ht⟩ := Option.isSome_iff_exists.mp h
    have ht2 : getTicket (logStepComplete
        (upsertCheckpoint s
          { ticket_id := tid, state := st.state,
            current_step := st.current_step.getD st.node }) tid st.node)
        tid = some t := by
      rw [logStepComplete, getTicket_appendEvent, getTicket_upsertCheckpoint]
      exact ht
    unfold execStep
    rw [getTicket_updateHeartbeat ht2]
    rfl

-- ### Claim theorems

/-- Claim C1 (code bug): on an approved decision whose gated tool raises,
decide_approval reports the error only in the HTTP response message; the
ticket result is left untouched (no error recorded) and the ticket stays
awaiting_approval instead of completing. Only the approval row itself is
not re-opened (it stays approved), as the claim states. -/
theorem approved_tool_failure_leaves_ticket_awaiting :
    (decideApproval raisingRefund 100 approvalStore 0 approveReq).1 =
      .ok false "Action approved but execution failed: boom" ∧
    (getTicket (decideApproval raisingRefund 100 approvalStore 0 approveReq).2
      "t1").map Ticket.status = some .awaiting_approval ∧
    (getTicket (decideApproval raisingRefund 100 approvalStore 0 approveReq).2
      "t1").map Ticket.result = some (some approvalResult) ∧
    (getApproval (decideApproval raisingRefund 100 approvalStore 0 approveReq).2
      0).map Approval.status = some .approved :=
  ⟨rfl, rfl, rfl, rfl⟩

/-- Claim C2 (code bug): the checkpoint is retained across the
awaiting_approval suspension and deleted on normal worker completion, but
an approval decision that completes the ticket leaves the checkpoint in
place: decide_approval never calls the checkpoint repository. -/
theorem approval_decision_retains_checkpoint :
    getCheckpoint (process {} awaitRun 0 "t1" 1 pendingStore).2 "t1" =
      some { ticket_id := "t1", state := "", current_step := "agent" } ∧
    getCheckpoint (process {} okRun 0 "t1" 1 pendingStore).2 "t1" = none ∧
    (getTicket (decideApproval okRefund 100 approvalStoreCkpt 0 rejectReq).2
      "t1").map Ticket.status = some .completed ∧
    getCheckpoint (decideApproval okRefund 100 approvalStoreCkpt 0 rejectReq).2
      "t1" =
      some { ticket_id := "t1", state := "st", current_step := "await_approval" } :=
  ⟨rfl, rfl, rfl, rfl⟩

/-- Claim C3 counterexample: with max_retries = 3 and a workflow that
raises on every attempt, the ticket does reach failed_permanent with
result.error populated, but exactly two retry events precede it, not
three: retries are recorded only for envelope attempts 1 and 2, attempt 3
being the terminal one. -/
theorem always_failing_run_has_two_retry_events :
    (getTicket retryRunStore "t1").map Ticket.status =
      some .failed_permanent ∧
    (getTicket retryRunStore "t1").map Ticket.result =
      some (some { error := some "boom" }) ∧
    countEvents retryRunStore .retry "t1" = 2 ∧
    ¬ countEvents retryRunStore .retry "t1" = 3 :=
  ⟨rfl, rfl, rfl, by decide⟩

/-- Claim C3 as amended: with max_retries = 3 and a workflow that raises on
every attempt, the queue drains within three deliveries (so at most four
processing attempts) and nothing is dead-lettered; the ticket ends
failed_permanent with result.error populated after exactly two retry
events; its attempt_count ends at 2 and stays at or below
max_retries + 1 = 4 in every store the run visits. -/
theorem retry_exhaustion_reaches_failed_permanent :
    (runQueue {} alwaysFailing 0 3 [{ ticket_id := "t1", attempt := 1 }]
      pendingStore).2.1 = [] ∧
    (runQueue {} alwaysFailing 0 3 [{ ticket_id := "t1", attempt := 1 }]
      pendingStore).2.2 = [] ∧
    (getTicket retryRunStore "t1").map Ticket.status =
      some .failed_permanent ∧
    ((getTicket retryRunStore "t1").bind Ticket.result).bind
      TicketResult.error = some "boom" ∧
    countEvents retryRunStore .retry "t1" = 2 ∧
    (getTicket retryRunStore "t1").map Ticket.attempt_count = some 2 ∧
    ((runTrace {} alwaysFailing 0 10 [{ ticket_id := "t1", attempt := 1 }]
        pendingStore).all
      (fun st => st.tickets.all (fun t => t.attempt_count ≤ 3 + 1))) = true :=
  ⟨rfl, rfl, rfl, rfl, rfl, rfl, rfl⟩

/-- Claim C4 (code bug): create_agent_graph imposes no bound on the
agent/tools loop. Driven by an LLM that proposes auto-approve tool calls
nine times, the run performs ten agent iterations — past the claimed bound
of eight — terminates only because the script stops, and its final
response is the LLM answer, not the generic fallback that the claim says a
forced finalize would set. -/
theorem agent_loop_exceeds_eight_iterations :
    agentRunC4.2.1 = 10 ∧
    8 < agentRunC4.2.1 ∧
    agentRunC4.2.2 = true ∧
    agentRunC4.1.final_response = some "All set" ∧
    agentRunC4.1.final_response ≠ some FALLBACK_RESPONSE :=
  ⟨rfl, by decide, rfl, rfl, by decide⟩

/-- Claim C5 counterexample: decide_approval never checks the ticket's
status. Deciding a leftover pending approval of a ticket already in the
terminal status failed_permanent persists a further status change:
the ticket is written to completed. -/
theorem decide_on_failed_permanent_ticket_completes_it :
    (getTicket failedStore "t1").map Ticket.status =
      some .failed_permanent ∧
    (getApproval failedStore 0).map Approval.status = some .pending ∧
    (getTicket (decideApproval okRefund 100 failedStore 0 rejectReq).2
      "t1").map Ticket.status = some .completed :=
  ⟨rfl, rfl, rfl⟩

/-- Claim C7 counterexample: update_ticket called with an expected_version
on an absent ticket fails with VersionConflict (OptimisticLockError), not
with NotFound as the claim states: when zero rows match, the repository
raises OptimisticLockError whenever an expected version was supplied. -/
theorem update_absent_ticket_with_expected_version_conflicts :
    getTicket ({} : Store) "ghost" = none ∧
    updateTicket ({} : Store) "ghost" { status := some .completed } (some 1) =
      .error .versionConflict ∧
    updateTicket ({} : Store) "ghost" { status := some .completed } (some 1) ≠
      .error .notFound :=
  ⟨rfl, rfl, by decide⟩

/-- Claim C10: update_ticket with an all-unset patch performs no write: for
an existing ticket it returns the current row with every field unchanged
and leaves the store untouched; for an absent ticket it fails with
NotFound (the expected_version, if any, is ignored on this path). -/
theorem empty_patch_update_is_read (s : Store) (tid : TicketId)
    (ev : Option Nat) (u : TicketUpdate) (he : patchIsEmpty u = true) :
    (∀ t, getTicket s tid = some t → updateTicket s tid u ev = .ok (t, s)) ∧
    (getTicket s tid = none → updateTicket s tid u ev = .error .notFound) := by
  constructor
  · intro t ht
    simp [updateTicket, he, ht]
  · intro h
    simp [updateTicket, he, h]

/-- Claim C10 witness: the empty patch on the one-ticket store reads the
ticket back unchanged. -/
theorem empty_patch_update_is_read_witness :
    updateTicket pendingStore "t1" {} (some 7) = .ok (baseTicket, pendingStore) :=
  (empty_patch_update_is_read pendingStore "t1" (some 7) {} rfl).1 baseTicket rfl

/-- Claim C7 as amended: for update_ticket with an expected_version and a
patch with at least one field set, a matching row (the ticket exists at
exactly the expected version) yields the post-image with version
incremented by exactly 1; when no row matches — the ticket is absent, or
present at a different version — the call fails with VersionConflict.
NotFound is raised on the version-guarded path never; it is reserved for
the empty-patch read. -/
theorem update_ticket_cas_characterization (s : Store) (tid : TicketId)
    (u : TicketUpdate) (v : Nat) (hne : patchIsEmpty u = false) :
    (∀ t, getTicket s tid = some t → t.version = v →
      updateTicket s tid u (some v) =
        .ok (applyPatch t u, putTicket s (applyPatch t u)) ∧
      (applyPatch t u).version = t.version + 1) ∧
    (getTicket s tid = none →
      updateTicket s tid u (some v) = .error .versionConflict) ∧
    (∀ t, getTicket s tid = some t → t.version ≠ v →
      updateTicket s tid u (some v) = .error .versionConflict) := by
  refine ⟨?_, ?_, ?_⟩
  · intro t ht hv
    refine ⟨?_, rfl⟩
    subst hv
    exact updateTicket_matched u ht hne
  · intro h
    simp [updateTicket, hne, h]
  · intro t ht hv
    simp [updateTicket, hne, ht, hv]

/-- Claim C7 witness: a CAS update at the matching version succeeds on the
one-ticket store and bumps the version from 1 to 2. -/
theorem update_ticket_cas_witness :
    updateTicket pendingStore "t1" { status := some .processing } (some 1) =
      .ok (applyPatch baseTicket { status := some .processing },
        putTicket pendingStore (applyPatch baseTicket { status := some .processing })) ∧
    (applyPatch baseTicket { status := some .processing }).version = 2 :=
  (update_ticket_cas_characterization pendingStore "t1"
    { status := some .processing } 1 rfl).1 baseTicket rfl rfl

/-- Claim C9: an envelope whose attempt has reached max_retries, delivered
for a ticket that another worker is actively processing (fresh heartbeat),
is nacked without requeue — routed to the dead-letter queue — and the
store, in particular the ticket's status, is left completely unchanged. -/
theorem exhausted_retry_routes_to_dlx (cfg : WorkerCfg) (run : WorkflowRun)
    (now : Nat) (m : Envelope) (s : Store) (t : Ticket)
    (ht : getTicket s m.ticket_id = some t)
    (hst : t.status = .processing)
    (hfresh : isFreshHeartbeat t.last_heartbeat now cfg.stale_threshold = true)
    (hatt : cfg.max_retries ≤ m.attempt) :
    processMessage cfg run now m s = (.dlx, [], s) := by
  have hp : process cfg run now m.ticket_id m.attempt s = (.redo, s) := by
    simp [process, ht, hst, hfresh]
  simp [processMessage, hp, Nat.not_lt.mpr hatt]

/-- Claim C9 witness: attempt 3 (= max_retries) on a ticket freshly leased
by another worker goes to the dead-letter queue with the store intact. -/
theorem exhausted_retry_routes_to_dlx_witness :
    processMessage {} failingRun 0 { ticket_id := "t1", attempt := 3 }
      processingStore = (.dlx, [], processingStore) :=
  exhausted_retry_routes_to_dlx {} failingRun 0
    { ticket_id := "t1", attempt := 3 } processingStore processingTicket
    rfl rfl rfl (by decide)

/-- Claim C6: POST /tickets twice with the identical payload returns the
deterministic ticket id both times, and exactly one created event exists
for that ticket afterwards: the second call hits the idempotency lookup
and returns the existing row without inserting or logging anything. -/
theorem create_ticket_idempotent (now1 now2 : Nat) (req : CreateTicketRequest)
    (s : Store) (tid : TicketId)
    (htid : tid = generateTicketId req.customer_id req.subject req.body)
    (h1 : getTicket s tid = none)
    (h2 : countEvents s .created tid = 0) :
    (createTicket now1 req s).1.ticket_id = tid ∧
    (createTicket now2 req (createTicket now1 req s).2.2).1.ticket_id = tid ∧
    countEvents (createTicket now2 req (createTicket now1 req s).2.2).2.2
      .created tid = 1 := by
  subst htid
  have h1' : s.tickets.find?
      (fun t => t.id == generateTicketId req.customer_id req.subject req.body) =
      none := h1
  have htks : (createTicket now1 req s).2.2.tickets =
      s.tickets ++
        [{ id := generateTicketId req.customer_id req.subject req.body,
           customer_id := req.customer_id, subject := req.subject,
           body := req.body, created_at := now1 }] := by
    simp [createTicket, h1, appendEvent]
  have hevs : (createTicket now1 req s).2.2.events =
      s.events ++
        [{ ticket_id := generateTicketId req.customer_id req.subject req.body,
           event_type := .created,
           payload := [("customer_id", req.customer_id),
                       ("subject", req.subject)] }] := by
    simp [createTicket, h1, appendEvent]
  have hget2 : getTicket (createTicket now1 req s).2.2
      (generateTicketId req.customer_id req.subject req.body) =
      some { id := generateTicketId req.customer_id req.subject req.body,
             customer_id := req.customer_id, subject := req.subject,
             body := req.body, created_at := now1 } := by
    show (createTicket now1 req s).2.2.tickets.find? _ = _
    rw [htks, List.find?_append, h1']
    simp
  have hdup : ∀ (now : Nat) (sB : Store) (t : Ticket),
      getTicket sB (generateTicketId req.customer_id req.subject req.body) =
        some t →
      createTicket now req sB =
        ({ ticket_id := t.id, status := t.status }, [], sB) := by
    intro now sB t hB
    simp [createTicket, hB]
  refine ⟨by simp [createTicket, h1], ?_, ?_⟩
  · rw [hdup now2 _ _ hget2]
  · rw [hdup now2 _ _ hget2]
    show (createTicket now1 req s).2.2.events.countP _ = 1
    rw [hevs, List.countP_append]
    have h2' : s.events.countP
        (fun e => decide (e.event_type = .created ∧
          e.ticket_id = generateTicketId req.customer_id req.subject req.body)) =
        0 := h2
    rw [h2']
    simp

/-- Claim C6 witness: two identical POSTs against the empty store return
the same id and leave one created event. -/
theorem create_ticket_idempotent_witness :
    (createTicket 0 { customer_id := "c", subject := "s", body := "b" }
      ({} : Store)).1.ticket_id = "c:s:b" ∧
    (createTicket 1 { customer_id := "c", subject := "s", body := "b" }
      (createTicket 0 { customer_id := "c", subject := "s", body := "b" }
        ({} : Store)).2.2).1.ticket_id = "c:s:b" ∧
    countEvents
      (createTicket 1 { customer_id := "c", subject := "s", body := "b" }
        (createTicket 0 { customer_id := "c", subject := "s", body := "b" }
          ({} : Store)).2.2).2.2 .created "c:s:b" = 1 :=
  create_ticket_idempotent 0 1 { customer_id := "c", subject := "s", body := "b" }
    ({} : Store) "c:s:b" (by decide) rfl rfl

/-- Claim C8: a worker that has issued heartbeats while processing (one per
completed step, each bumping the ticket version) still commits its
finalization without a phantom VersionConflict: TicketProcessor reloads
the ticket after the workflow run and CASes on the version just read, so
the happy path always ends in done with the ticket completed (or
awaiting_approval when the workflow surfaced a pending approval). -/
theorem heartbeat_no_phantom_conflict (cfg : WorkerCfg) (now : Nat)
    (tid : TicketId) (attempt : Nat) (s : Store) (t : Ticket)
    (steps : List StepOutput) (result : TicketResult)
    (ht : getTicket s tid = some t) (hst : t.status = .pending) :
    ∃ s2, process cfg { steps := steps, outcome := .ok result } now tid
        attempt s = (.done, s2) ∧
      (getTicket s2 tid).map Ticket.status =
        some (if result.pending_approval.isSome then
          TicketStatus.awaiting_approval else TicketStatus.completed) := by
  have hid : t.id = tid := getTicket_id ht
  have hacq : acquireForProcessing s tid cfg.worker_id now t.version =
      .ok (applyPatch t (acquirePatch cfg.worker_id now),
        putTicket s (applyPatch t (acquirePatch cfg.worker_id now))) :=
    updateTicket_matched _ ht rfl
  have hid1 : (applyPatch t (acquirePatch cfg.worker_id now)).id = tid := hid
  have hput : getTicket
      (putTicket s (applyPatch t (acquirePatch cfg.worker_id now))) tid =
      some (applyPatch t (acquirePatch cfg.worker_id now)) :=
    getTicket_putTicket ht _ hid1
  have hsome : (getTicket (execSteps cfg.worker_id now tid steps
      (logStatusChange
        (putTicket s (applyPatch t (acquirePatch cfg.worker_id now)))
        tid .pending .processing)) tid).isSome := by
    apply getTicket_execSteps
    show (getTicket
      (putTicket s (applyPatch t (acquirePatch cfg.worker_id now))) tid).isSome
    rw [hput]
    rfl
  obtain ⟨cur, hcur⟩ := Option.isSome_iff_exists.mp hsome
  have hcurid : cur.id = tid := getTicket_id hcur
  have hcond1 : ¬(t.status = .completed ∨ t.status = .failed_permanent ∨
      t.status = .awaiting_approval) := by
    rw [hst]; decide
  have hcond2 : ¬(t.status = .processing ∧
      isFreshHeartbeat t.last_heartbeat now cfg.stale_threshold = true) := by
    rw [hst]; exact fun h => absurd h.1 (by decide)
  cases hpa : result.pending_approval with
  | none =>
    have hmark : markCompleted (execSteps cfg.worker_id now tid steps
        (logStatusChange
          (putTicket s (applyPatch t (acquirePatch cfg.worker_id now)))
          tid .pending .processing)) tid result now cur.version =
        .ok (applyPatch cur (completedPatch result now),
          putTicket (execSteps cfg.worker_id now tid steps
            (logStatusChange
              (putTicket s (applyPatch t (acquirePatch cfg.worker_id now)))
              tid .pending .processing))
            (applyPatch cur (completedPatch result now))) :=
      updateTicket_matched _ hcur rfl
    have hfin : getTicket (deleteCheckpoint (logStatusChange
        (putTicket (execSteps cfg.worker_id now tid steps
          (logStatusChange
            (putTicket s (applyPatch t (acquirePatch cfg.worker_id now)))
            tid .pending .processing))
          (applyPatch cur (completedPatch result now)))
        tid .processing .completed) tid) tid =
        some (applyPatch cur (completedPatch result now)) :=
      getTicket_putTicket hcur _ hcurid
    refine ⟨deleteCheckpoint (logStatusChange
        (putTicket (execSteps cfg.worker_id now tid steps
          (logStatusChange
            (putTicket s (applyPatch t (acquirePatch cfg.worker_id now)))
            tid .pending .processing))
          (applyPatch cur (completedPatch result now)))
        tid .processing .completed) tid, ?_, ?_⟩
    · simp only [process, ht, if_neg hcond1, if_neg hcond2, hacq, hcur, hpa,
        hmark]
    · rw [hfin]
      rfl
  | some pa =>
    have hcur2 : getTicket (createApproval (execSteps cfg.worker_id now tid
        steps (logStatusChange
          (putTicket s (applyPatch t (acquirePatch cfg.worker_id now)))
          tid .pending .processing)) tid pa.tool pa.args).2 tid = some cur := by
      rw [getTicket_createApproval]
      exact hcur
    have hmark : markAwaitingApproval (createApproval (execSteps cfg.worker_id
        now tid steps (logStatusChange
          (putTicket s (applyPatch t (acquirePatch cfg.worker_id now)))
          tid .pending .processing)) tid pa.tool pa.args).2 tid result
        cur.version =
        .ok (applyPatch cur (awaitingPatch result),
          putTicket (createApproval (execSteps cfg.worker_id now tid steps
            (logStatusChange
              (putTicket s (applyPatch t (acquirePatch cfg.worker_id now)))
              tid .pending .processing)) tid pa.tool pa.args).2
            (applyPatch cur (awaitingPatch result))) :=
      updateTicket_matched _ hcur2 rfl
    have hfin : getTicket (logStatusChange
        (putTicket (createApproval (execSteps cfg.worker_id now tid steps
          (logStatusChange
            (putTicket s (applyPatch t (acquirePatch cfg.worker_id now)))
            tid .pending .processing)) tid pa.tool pa.args).2
          (applyPatch cur (awaitingPatch result)))
        tid .processing .awaiting_approval) tid =
        some (applyPatch cur (awaitingPatch result)) :=
      getTicket_putTicket hcur2 _ hcurid
    refine ⟨logStatusChange
        (putTicket (createApproval (execSteps cfg.worker_id now tid steps
          (logStatusChange
            (putTicket s (applyPatch t (acquirePatch cfg.worker_id now)))
            tid .pending .processing)) tid pa.tool pa.args).2
          (applyPatch cur (awaitingPatch result)))
        tid .processing .awaiting_approval, ?_, ?_⟩
    · simp only [process, ht, if_neg hcond1, if_neg hcond2, hacq, hcur, hpa,
        hmark]
    · rw [hfin]
      rfl

/-- Claim C8 witness: one step (hence one heartbeat) on the pending ticket,
then a clean finalization to completed. -/
theorem heartbeat_no_phantom_conflict_witness :
    ∃ s2, process {} okRun 0 "t1" 1 pendingStore = (.done, s2) ∧
      (getTicket s2 "t1").map Ticket.status =
        some (if doneResult.pending_approval.isSome then
          TicketStatus.awaiting_approval else TicketStatus.completed) :=
  heartbeat_no_phantom_conflict {} 0 "t1" 1 pendingStore baseTicket
    [{ node := "agent" }] doneResult rfl rfl

/-- Claim C5 as amended: the worker's processing path never persists
anything for a terminal ticket — the idempotency gate acks and drops with
the store unchanged — and an approval decision on a ticket whose status is
completed leaves it completed (the completion write re-asserts the same
status). The amendment excludes the one violation shown by the
counterexample: deciding a leftover pending approval of a failed_permanent
ticket persists failed_permanent to completed, because decide_approval
never checks the ticket's status. -/
theorem terminal_stickiness_worker_and_completed :
    (∀ (cfg : WorkerCfg) (run : WorkflowRun) (now : Nat) (tid : TicketId)
        (attempt : Nat) (s : Store) (t : Ticket),
      getTicket s tid = some t →
      t.status = .completed ∨ t.status = .failed_permanent →
      process cfg run now tid attempt s = (.done, s)) ∧
    (∀ (refund : String → ToolOutcome) (now : Nat) (s : Store) (aid : Nat)
        (d : DecisionReq) (a : Approval) (t : Ticket),
      getApproval s aid = some a →
      getTicket s a.ticket_id = some t →
      t.status = .completed →
      (getTicket (decideApproval refund now s aid d).2 a.ticket_id).map
        Ticket.status = some .completed) := by
  constructor
  · intro cfg run now tid attempt s t ht hterm
    have hcond : t.status = .completed ∨ t.status = .failed_permanent ∨
        t.status = .awaiting_approval := by
      rcases hterm with h | h
      · exact Or.inl h
      · exact Or.inr (Or.inl h)
    simp only [process, ht, if_pos hcond]
  · intro refund now s aid d a t ha hticket hst
    obtain ⟨dapp, dby, dreason⟩ := d
    by_cases hpend : a.status = ApprovalStatus.pending
    · have hne : ¬(a.status ≠ ApprovalStatus.pending) := fun h => h hpend
      have hmarkfinal : ∀ (sX : Store) (r : TicketResult),
          getTicket sX a.ticket_id = some t →
          markCompleted sX a.ticket_id r now t.version =
            .ok (applyPatch t (completedPatch r now),
              putTicket sX (applyPatch t (completedPatch r now))) :=
        fun sX r hX => updateTicket_matched _ hX rfl
      have hputfinal : ∀ (sX : Store) (r : TicketResult),
          getTicket sX a.ticket_id = some t →
          getTicket (putTicket sX (applyPatch t (completedPatch r now)))
            a.ticket_id = some (applyPatch t (completedPatch r now)) := by
        intro sX r hX
        have hid1 : t.id = a.ticket_id := getTicket_id hX
        have hid2 : (applyPatch t (completedPatch r now)).id = a.ticket_id :=
          hid1
        exact getTicket_putTicket hX _ hid2
      have hstatfinal : ∀ (r : TicketResult),
          (applyPatch t (completedPatch r now)).status =
            TicketStatus.completed := fun _ => rfl
      cases dapp with
      | true =>
        have hrow : decideApprovalRow s aid true dby dreason =
            some
              ({ a with
                  status := ApprovalStatus.approved
                  decided_by := some dby
                  decision_reason := dreason },
                { s with
                  approvals := s.approvals.map (fun b =>
                    if b.id == aid then
                      { a with
                        status := ApprovalStatus.approved
                        decided_by := some dby
                        decision_reason := dreason }
                    else b) }) := by
          simp [decideApprovalRow, ha, hpend]
        cases hexec : executeApprovedAction refund a.action_type
            a.action_params with
        | raises m =>
          simp [decideApproval, ha, if_neg hne, hrow, getTicket_appendEvent,
            getTicket_setApprovals, hticket, hexec, hst]
        | ok success =>
          simp [decideApproval, ha, if_neg hne, hrow, getTicket_appendEvent,
            getTicket_logStatusChange, getTicket_setApprovals, hticket, hexec,
            hmarkfinal, hputfinal, hstatfinal]
      | false =>
        have hrow : decideApprovalRow s aid false dby dreason =
            some
              ({ a with
                  status := ApprovalStatus.rejected
                  decided_by := some dby
                  decision_reason := dreason },
                { s with
                  approvals := s.approvals.map (fun b =>
                    if b.id == aid then
                      { a with
                        status := ApprovalStatus.rejected
                        decided_by := some dby
                        decision_reason := dreason }
                    else b) }) := by
          simp [decideApprovalRow, ha, hpend]
        simp [decideApproval, ha, if_neg hne, hrow, getTicket_appendEvent,
          getTicket_logStatusChange, getTicket_setApprovals, hticket,
          hmarkfinal, hputfinal, hstatfinal]
    · have hne2 : a.status ≠ ApprovalStatus.pending := hpend
      simp [decideApproval, ha, if_pos hne2, hticket, hst]

/-- Claim C5 witness: the worker drops an envelope for a completed ticket
without touching the store, and a decision on a pending approval of a
completed ticket leaves it completed. -/
theorem terminal_stickiness_witness :
    process {} failingRun 0 "t1" 1 completedStore = (.done, completedStore) ∧
    (getTicket (decideApproval okRefund 100 completedStore 0 rejectReq).2
      "t1").map Ticket.status = some .completed :=
  ⟨terminal_stickiness_worker_and_completed.1 {} failingRun 0 "t1" 1
      completedStore completedTicket rfl (Or.inl rfl),
    terminal_stickiness_worker_and_completed.2 okRefund 100 completedStore 0
      rejectReq refundApproval completedTicket rfl rfl rfl⟩

end TicketFlow
